import Mathlib

/-!
Verification development for the redpanda debug-bundle service
(`src/v/debug_bundle/debug_bundle_service.cc`).

The C++ service is shallowly embedded: pure helpers become Lean functions,
the service's mutable state (`_rpk_process`, the debug-bundle KV entry, the
relevant files on disk) becomes an explicit `service_state` record, and each
operation becomes a state-passing function.  Outcomes of external
collaborators (file system errors, process spawn/terminate/wait outcomes,
the SHA-256 routine) are passed in as explicit parameters, since the service
only observes their results.  Machine integers that matter here (exit codes,
signal numbers) are modelled as `Int`; sizes and lengths as `Nat`.
-/

namespace debug_bundle

/-- Wait status of the external child process, mirroring
`ss::experimental::process::wait_status`: the process either exited with an
exit code or was terminated by a signal. -/
inductive wait_status where
  | exited (exit_code : Int)
  | signaled (terminating_signal : Int)
  deriving DecidableEq, Repr

/-- Status of a debug bundle run, mirroring `debug_bundle_status`. -/
inductive debug_bundle_status where
  | running
  | success
  | error
  deriving DecidableEq, Repr

/-- Error codes used by the service (`debug_bundle/error.h` tags as used in
`debug_bundle_service.cc`). -/
inductive error_code where
  | invalid_parameters
  | process_failed
  | internal_error
  | rpk_binary_not_present
  | debug_bundle_process_running
  | debug_bundle_process_not_running
  | debug_bundle_process_never_started
  | job_id_not_recognized
  deriving DecidableEq, Repr

/-- Mirror of `error_info`: an error code plus a message. -/
structure error_info where
  code : error_code
  message : String
  deriving DecidableEq, Repr

/-- Mirror of `was_run_successful`: the run succeeded iff the wait status is
`wait_exited` with exit code 0. -/
def was_run_successful : wait_status → Bool
  | .exited exit_code => exit_code == 0
  | .signaled _ => false

/-- Character class `[a-zA-Z0-9]` of the RFC-1123 regex in
`is_valid_rfc1123`. -/
def isAlnumAZ (c : Char) : Bool :=
  (('a' ≤ c) && (c ≤ 'z')) || (('A' ≤ c) && (c ≤ 'Z')) || (('0' ≤ c) && (c ≤ '9'))

/-- Character class `[a-zA-Z0-9-]` of the RFC-1123 regex in
`is_valid_rfc1123`. -/
def isNsChar (c : Char) : Bool :=
  isAlnumAZ c || (c == '-')

/-- Mirror of `is_valid_rfc1123`: full-match of the input against the RE2
pattern `^([a-zA-Z0-9]([a-zA-Z0-9-]{0,61}[a-zA-Z0-9])?)`.  `RE2::FullMatch`
requires the entire text to match, so the accepted language is: one
`[a-zA-Z0-9]` character, optionally followed by at most 61 characters of
`[a-zA-Z0-9-]` and then one final `[a-zA-Z0-9]` character.  For a non-empty
tail `rest` that reading is: `rest` has length at most 62, all of `rest` but
its last character lies in `[a-zA-Z0-9-]`, and its last character lies in
`[a-zA-Z0-9]`. -/
def is_valid_rfc1123 (l : List Char) : Bool :=
  match l with
  | [] => false
  | c :: rest =>
    isAlnumAZ c &&
      (rest.isEmpty ||
        (decide (rest.length ≤ 62) && rest.dropLast.all isNsChar &&
          (match rest.getLast? with
           | some d => isAlnumAZ d
           | none => false)))

/-- Mirror of `is_valid_k8s_namespace`: non-empty, at most 63 characters, and
accepted by the RFC-1123 regex.  The C++ `ns.size()` counts bytes while this
model counts characters; the two differ only on non-ASCII input, which the
regex rejects on both sides, so the boolean result agrees. -/
def is_valid_k8s_namespace (ns : String) : Bool :=
  !ns.data.isEmpty && decide (ns.data.length ≤ 63) && is_valid_rfc1123 ns.data

/-- SCRAM credentials variant of the authentication options
(`scram_creds`). -/
structure scram_creds where
  username : String
  password : String
  mechanism : String
  deriving DecidableEq, Repr

/-- Mirror of `debug_bundle_parameters` (`debug_bundle/types.h` as consumed
by `build_rpk_arguments`).  Byte quantities and duration counts are `Nat`;
`partition` entries are modelled as their formatted text. -/
structure debug_bundle_parameters where
  authn_options : Option scram_creds
  controller_logs_size_limit_bytes : Option Nat
  cpu_profiler_wait_seconds : Option Nat
  logs_since : Option String
  logs_size_limit_bytes : Option Nat
  logs_until : Option String
  metrics_interval_seconds : Option Nat
  partition : Option (List String)
  tls_enabled : Option Bool
  tls_insecure_skip_verify : Option Bool
  k8s_namespace : Option String
  deriving DecidableEq, Repr

/-- Mirror of `service::build_rpk_arguments`.  `rpk_path` stands for
`_rpk_path_binding().native()`.  Each `ssx::sformat` call is translated to
the corresponding string concatenation (`fmt` prints naturals in base 10 and
booleans as `true`/`false`; `fmt::join` with separator a single space is
`String.intercalate`). -/
def build_rpk_arguments (rpk_path : String) (debug_bundle_file_path : String)
    (params : debug_bundle_parameters) : Except error_info (List String) :=
  let rv : List String :=
    [rpk_path, "debug", "bundle", "--output", debug_bundle_file_path, "--verbose"]
  let rv := rv ++
    (match params.authn_options with
     | some creds =>
       ["-Xuser=" ++ creds.username, "-Xpass=" ++ creds.password,
        "-Xsasl.mechanism=" ++ creds.mechanism]
     | none => [])
  let rv := rv ++
    (match params.controller_logs_size_limit_bytes with
     | some n => ["--controller-logs-size-limit", toString n ++ "B"]
     | none => [])
  let rv := rv ++
    (match params.cpu_profiler_wait_seconds with
     | some n => ["--cpu-profiler-wait", toString n ++ "s"]
     | none => [])
  let rv := rv ++
    (match params.logs_since with
     | some v => ["--logs-since", v]
     | none => [])
  let rv := rv ++
    (match params.logs_size_limit_bytes with
     | some n => ["--logs-size-limit", toString n ++ "B"]
     | none => [])
  let rv := rv ++
    (match params.logs_until with
     | some v => ["--logs-until", v]
     | none => [])
  let rv := rv ++
    (match params.metrics_interval_seconds with
     | some n => ["--metrics-interval", toString n ++ "s"]
     | none => [])
  let rv := rv ++
    (match params.partition with
     | some ps => ["--partition", String.intercalate " " ps]
     | none => [])
  let rv := rv ++
    (match params.tls_enabled with
     | some b => ["-Xtls.enabled=" ++ toString b]
     | none => [])
  let rv := rv ++
    (match params.tls_insecure_skip_verify with
     | some b => ["-Xtls.insecure_skip_verify=" ++ toString b]
     | none => [])
  match params.k8s_namespace with
  | some ns =>
    if !is_valid_k8s_namespace ns then
      .error ⟨.invalid_parameters, "Invalid k8s namespace name"⟩
    else
      .ok (rv ++ ["--namespace", ns])
  | none => .ok rv

/-- Mirror of `service::debug_bundle_process`: the handle for one in-flight
or finished run.  `wait_result` is the optional terminal wait status
(`_wait_result`); `cout` and `cerr` are the captured stdout/stderr chunks. -/
structure debug_bundle_process where
  job_id : String
  wait_result : Option wait_status
  output_file_path : String
  process_output_file_path : String
  cout : List String
  cerr : List String
  created_time : Nat
  deriving DecidableEq, Repr

/-- Mirror of `debug_bundle_process::process_status`: `running` while no wait
result is stored; `success` for exit code 0; `error` for a non-zero exit code
or a signal. -/
def debug_bundle_process.process_status (h : debug_bundle_process) : debug_bundle_status :=
  match h.wait_result with
  | some (.exited exit_code) =>
    if exit_code == 0 then .success else .error
  | some (.signaled _) => .error
  | none => .running

/-- Outcome of the underlying `external_process::wait()` call: either a wait
status or a thrown exception (modelled by its message). -/
inductive wait_outcome where
  | completed (ws : wait_status)
  | threw (e : String)
  deriving DecidableEq, Repr

/-- Mirror of `debug_bundle_process::wait`: one await of the child.  On
completion the wait status is emplaced into `_wait_result` and returned; on
an exception a synthetic `wait_exited{1}` is emplaced and the exception is
re-raised to the caller. -/
def debug_bundle_process.wait (h : debug_bundle_process) (o : wait_outcome) :
    debug_bundle_process × Except String wait_status :=
  match o with
  | .completed ws => ({ h with wait_result := some ws }, .ok ws)
  | .threw e => ({ h with wait_result := some (.exited 1) }, .error e)

/-- Mirror of the persisted `metadata` record built in `service::set_metadata`
(`debug_bundle/metadata.h`).  The serialized bytes in the KV store are
modelled by the record itself (serde round-trip fidelity is the encoding's
only contract). -/
structure metadata where
  created_at : Nat
  job_id : String
  debug_bundle_file_path : String
  process_output_file_path : String
  sha256_checksum : List Nat
  wait_result : wait_status
  deriving DecidableEq, Repr

/-- File-system model: the set of existing file paths. -/
def path_exists (p : String) (fs : List String) : Bool :=
  fs.contains p

/-- Remove a path from the file-system model (`ss::remove_file` guarded by
`ss::file_exists`). -/
def remove_path (p : String) (fs : List String) : List String :=
  fs.filter (fun q => q ≠ p)

/-- Create a path in the file-system model. -/
def insert_path (p : String) (fs : List String) : List String :=
  if path_exists p fs then fs else p :: fs

/-- The service's observable state: the current process handle
(`_rpk_process`, `none` when the `unique_ptr` is null), the content of the
single debug-bundle KV-store entry under the well-known key
(`debug_bundle_metadata_key`), and the file system. -/
structure service_state where
  rpk_process : Option debug_bundle_process
  kv_entry : Option metadata
  fs : List String
  deriving DecidableEq, Repr

/-- Mirror of `service::process_status`: `none` when no handle exists. -/
def service_state.process_status (st : service_state) : Option debug_bundle_status :=
  match st.rpk_process with
  | none => none
  | some h => some h.process_status

/-- Mirror of `service::is_running`. -/
def service_state.is_running (st : service_state) : Bool :=
  match st.rpk_process with
  | none => false
  | some h => h.process_status == .running

/-- Outcome of `write_file` for the process-output sidecar.  `write_file`
opens the file with `open_flags::create | open_flags::rw` and then streams
the buffer into it, so a failure can strike either before the file exists
(open fails) or after it was created (copy/flush fails, leaving a partial
file on disk). -/
inductive write_outcome where
  | ok
  | fail_before_create
  | fail_after_create
  deriving DecidableEq, Repr

/-- Mirror of `service::set_metadata`, returning the updated state together
with the KV entry that was `put` (if any).  Steps: when the run was
successful but the bundle file is missing, return early without touching
anything; otherwise compute the checksum (SHA-256 of the bundle file on
success, empty otherwise), `put` the metadata under the well-known key,
schedule a deferred background removal of that entry, attempt to write the
process-output sidecar file, and cancel the removal only if that write
succeeded.  `sha` stands for `calculate_sha256_sum`; the final state is the
one after the scheduled background removal (if still pending) has run. -/
def set_metadata (sha : String → List Nat) (wo : write_outcome) (st : service_state)
    (job_id : String) : service_state × Option metadata :=
  match st.rpk_process with
  | none => (st, none)
  | some h =>
    match h.wait_result with
    | none => (st, none)
    | some ws =>
      let debug_bundle_file := h.output_file_path
      let process_output_file := h.process_output_file_path
      let run_successful := was_run_successful ws
      if run_successful && !path_exists debug_bundle_file st.fs then
        (st, none)
      else
        let sha256_checksum : List Nat :=
          if run_successful then sha debug_bundle_file else []
        let md : metadata :=
          { created_at := h.created_time
            job_id := job_id
            debug_bundle_file_path := debug_bundle_file
            process_output_file_path := process_output_file
            sha256_checksum := sha256_checksum
            wait_result := ws }
        let st1 := { st with kv_entry := some md }
        match wo with
        | .ok =>
          ({ st1 with fs := insert_path process_output_file st1.fs }, some md)
        | .fail_before_create =>
          ({ st1 with kv_entry := none }, some md)
        | .fail_after_create =>
          ({ st1 with kv_entry := none,
                      fs := insert_path process_output_file st1.fs }, some md)

/-- Mirror of `service::handle_wait_result`: the background continuation that
runs after `wait()` resolves for job `job_id`.  If no handle is installed or
the installed handle belongs to a different job, nothing happens; otherwise
`set_metadata` runs (its exceptions are swallowed). -/
def handle_wait_result (sha : String → List Nat) (wo : write_outcome)
    (st : service_state) (job_id : String) : service_state × Option metadata :=
  match st.rpk_process with
  | none => (st, none)
  | some h =>
    if h.job_id ≠ job_id then (st, none)
    else set_metadata sha wo st job_id

/-- Mirror of `service::cleanup_previous_run`: remove the previous handle's
bundle file and process-output file when present, then remove the KV entry. -/
def cleanup_previous_run (st : service_state) : service_state :=
  match st.rpk_process with
  | none => st
  | some h =>
    let fs1 := remove_path h.output_file_path st.fs
    let fs2 := remove_path h.process_output_file_path fs1
    { st with fs := fs2, kv_entry := none }

/-- External outcomes observed during
`service::initiate_rpk_debug_bundle_collection`: existence of the collector
binary at `_rpk_path_binding()`, whether `cleanup_previous_run` throws,
existence of the storage directory and whether `recursive_touch_directory`
succeeds, whether `create_external_process` succeeds, the snapshot of the
storage-directory config, the collector path and the current clock value. -/
structure initiate_env where
  rpk_binary_exists : Bool
  cleanup_throws : Bool
  storage_dir_exists : Bool
  mkdir_ok : Bool
  spawn_ok : Bool
  rpk_path : String
  storage_dir : String
  now : Nat
  deriving DecidableEq, Repr

/-- Mirror of `form_debug_bundle_file_path`. -/
def form_debug_bundle_file_path (base_path : String) (job_id : String) : String :=
  base_path ++ "/" ++ job_id ++ ".zip"

/-- Mirror of `form_process_output_file_path`. -/
def form_process_output_file_path (base_path : String) (job_id : String) : String :=
  base_path ++ "/" ++ job_id ++ ".out"

/-- Mirror of `service::initiate_rpk_debug_bundle_collection` on the service
shard, under the control mutex.  A `cleanup_previous_run` exception is
modelled as leaving the state as it was (the model's cleanup is
all-or-nothing).  On a spawn failure `_rpk_process.reset()` clears the
handle before returning `internal_error`. -/
def initiate_rpk_debug_bundle_collection (env : initiate_env) (st : service_state)
    (job_id : String) (params : debug_bundle_parameters) :
    service_state × Except error_info Unit :=
  if !env.rpk_binary_exists then
    (st, .error ⟨.rpk_binary_not_present, env.rpk_path ++ " not present"⟩)
  else if st.is_running then
    (st, .error ⟨.debug_bundle_process_running, "Debug process already running"⟩)
  else if env.cleanup_throws then
    (st, .error ⟨.internal_error, "Failed to clean up previous run"⟩)
  else
    let st1 := cleanup_previous_run st
    if !env.storage_dir_exists && !env.mkdir_ok then
      (st1, .error ⟨.internal_error, "Failed to create debug bundle directory"⟩)
    else
      let debug_bundle_file_path := form_debug_bundle_file_path env.storage_dir job_id
      let process_output_path := form_process_output_file_path env.storage_dir job_id
      match build_rpk_arguments env.rpk_path debug_bundle_file_path params with
      | .error e => (st1, .error e)
      | .ok _args =>
        if !env.spawn_ok then
          ({ st1 with rpk_process := none },
           .error ⟨.internal_error, "Starting rpk debug bundle failed"⟩)
        else
          let new_handle : debug_bundle_process :=
            { job_id := job_id
              wait_result := none
              output_file_path := debug_bundle_file_path
              process_output_file_path := process_output_path
              cout := []
              cerr := []
              created_time := env.now }
          ({ st1 with rpk_process := some new_handle }, .ok ())

/-- Outcome of `external_process::terminate` as observed by
`cancel_rpk_debug_bundle`: success, a `std::system_error` carrying
`process_already_completed`, another `std::system_error`, or another
exception. -/
inductive terminate_outcome where
  | ok
  | process_already_completed
  | sys_error (msg : String)
  | other_error (msg : String)
  deriving DecidableEq, Repr

/-- Mirror of `service::cancel_rpk_debug_bundle` on the service shard, under
the control mutex.  The second component records the grace period in
milliseconds passed to `terminate` when it was invoked (`1s`). -/
def cancel_rpk_debug_bundle (tout : terminate_outcome) (st : service_state)
    (job_id : String) : Except error_info Unit × Option Nat :=
  match st.rpk_process with
  | none => (.error ⟨.debug_bundle_process_never_started, ""⟩, none)
  | some h =>
    if h.process_status ≠ .running then
      (.error ⟨.debug_bundle_process_not_running, ""⟩, none)
    else if job_id ≠ h.job_id then
      (.error ⟨.job_id_not_recognized, ""⟩, none)
    else
      match tout with
      | .ok => (.ok (), some 1000)
      | .process_already_completed =>
        (.error ⟨.debug_bundle_process_not_running, ""⟩, some 1000)
      | .sys_error m => (.error ⟨.internal_error, m⟩, some 1000)
      | .other_error m => (.error ⟨.internal_error, m⟩, some 1000)

/-- Basename of a path, mirroring `std::filesystem::path::filename`. -/
def path_filename (p : String) : String :=
  (p.splitOn "/").getLastD p

/-- Mirror of `debug_bundle_status_data`. -/
structure debug_bundle_status_data where
  job_id : String
  status : debug_bundle_status
  created_timestamp : Nat
  file_name : String
  file_size : Option Nat
  cout : List String
  cerr : List String
  deriving DecidableEq, Repr

/-- Mirror of `service::rpk_debug_bundle_status`.  `sizes` gives the size of
an existing file; `ss::file_size` on a missing file fails, which the service
translates to `internal_error`.  The size is only queried when the status is
`success`. -/
def rpk_debug_bundle_status (sizes : String → Nat) (st : service_state) :
    Except error_info debug_bundle_status_data :=
  match st.rpk_process with
  | none => .error ⟨.debug_bundle_process_never_started, ""⟩
  | some h =>
    let status := h.process_status
    if status == .success && !path_exists h.output_file_path st.fs then
      .error ⟨.internal_error, "Failed to get file size for debug bundle file"⟩
    else
      .ok { job_id := h.job_id
            status := status
            created_timestamp := h.created_time
            file_name := path_filename h.output_file_path
            file_size :=
              if status == .success then some (sizes h.output_file_path) else none
            cout := h.cout
            cerr := h.cerr }

/-- Mirror of `service::rpk_debug_bundle_path` on the service shard, under
the control mutex. -/
def rpk_debug_bundle_path (st : service_state) (job_id : String) :
    Except error_info String :=
  match st.rpk_process with
  | none => .error ⟨.debug_bundle_process_never_started, ""⟩
  | some h =>
    match h.process_status with
    | .running => .error ⟨.debug_bundle_process_running, ""⟩
    | .error => .error ⟨.process_failed, ""⟩
    | .success =>
      if job_id ≠ h.job_id then
        .error ⟨.job_id_not_recognized, ""⟩
      else if !path_exists h.output_file_path st.fs then
        .error ⟨.internal_error, "Debug bundle file not found"⟩
      else
        .ok h.output_file_path

/-- Mirror of `service::delete_rpk_debug_bundle` on the service shard, under
the control mutex.  `remove_throws` models `ss::remove_file` throwing. -/
def delete_rpk_debug_bundle (remove_throws : Bool) (st : service_state)
    (job_id : String) : service_state × Except error_info Unit :=
  match st.rpk_process with
  | none => (st, .error ⟨.debug_bundle_process_never_started, ""⟩)
  | some h =>
    match h.process_status with
    | .running => (st, .error ⟨.debug_bundle_process_running, ""⟩)
    | .success | .error =>
      if h.job_id ≠ job_id then
        (st, .error ⟨.job_id_not_recognized, ""⟩)
      else if path_exists h.output_file_path st.fs && remove_throws then
        (st, .error ⟨.internal_error, "Failed to delete debug bundle file"⟩)
      else
        ({ st with fs := remove_path h.output_file_path st.fs }, .ok ())

/-! Spec-side definitions.  The following definitions are written from the
specification's words (section 3 table, section 4.A), not from the source;
they are compared against `build_rpk_arguments` and `is_valid_k8s_namespace`
by the refinement theorems below. -/

/-- Spec: always-emitted leading argv
`<collector_binary_path>, debug, bundle, --output <bundle_file>,
--verbose`. -/
def spec_leading_args (collector_binary_path bundle_file : String) : List String :=
  [collector_binary_path, "debug", "bundle", "--output", bundle_file, "--verbose"]

/-- Spec: the authn SCRAM group emits `-Xuser=…`, `-Xpass=…`,
`-Xsasl.mechanism=…`; an unset field contributes nothing. -/
def spec_authn_group : Option scram_creds → List String
  | some creds =>
    ["-Xuser=" ++ creds.username, "-Xpass=" ++ creds.password,
     "-Xsasl.mechanism=" ++ creds.mechanism]
  | none => []

/-- Spec: a byte-valued field emits `<flag> <N>B` with `N` in base 10. -/
def spec_bytes_group (flag : String) : Option Nat → List String
  | some n => [flag, toString n ++ "B"]
  | none => []

/-- Spec: a duration field emits `<flag> <N>s` with `N` in base 10. -/
def spec_duration_group (flag : String) : Option Nat → List String
  | some n => [flag, toString n ++ "s"]
  | none => []

/-- Spec: a plain string field emits `<flag> <v>`. -/
def spec_string_group (flag : String) : Option String → List String
  | some v => [flag, v]
  | none => []

/-- Spec: the partition field emits `--partition` followed by the
space-joined selectors as one token. -/
def spec_partition_group : Option (List String) → List String
  | some ps => ["--partition", String.intercalate " " ps]
  | none => []

/-- Spec: a boolean `-X…` field emits the single token `key=value` with no
surrounding whitespace. -/
def spec_bool_group (key : String) : Option Bool → List String
  | some b => [key ++ "=" ++ (if b then "true" else "false")]
  | none => []

/-- Spec: the full argv is the leading arguments followed by the optional
groups in the table order: authn, controller-logs-size-limit,
cpu-profiler-wait, logs-since, logs-size-limit, logs-until,
metrics-interval, partition, tls.enabled, tls.insecure_skip_verify,
namespace. -/
def spec_argv (collector_binary_path bundle_file : String)
    (params : debug_bundle_parameters) : List String :=
  spec_leading_args collector_binary_path bundle_file
    ++ spec_authn_group params.authn_options
    ++ spec_bytes_group "--controller-logs-size-limit"
        params.controller_logs_size_limit_bytes
    ++ spec_duration_group "--cpu-profiler-wait" params.cpu_profiler_wait_seconds
    ++ spec_string_group "--logs-since" params.logs_since
    ++ spec_bytes_group "--logs-size-limit" params.logs_size_limit_bytes
    ++ spec_string_group "--logs-until" params.logs_until
    ++ spec_duration_group "--metrics-interval" params.metrics_interval_seconds
    ++ spec_partition_group params.partition
    ++ spec_bool_group "-Xtls.enabled" params.tls_enabled
    ++ spec_bool_group "-Xtls.insecure_skip_verify" params.tls_insecure_skip_verify
    ++ spec_string_group "--namespace" params.k8s_namespace

/-- Spec: the RFC-1123 label rule for `k8s_namespace`: non-empty, at most 63
characters, leading and trailing characters alphanumeric, every character in
`[A-Za-z0-9-]`. -/
def rfc1123_label (ns : String) : Bool :=
  !ns.data.isEmpty && decide (ns.data.length ≤ 63) &&
    (match ns.data.head? with
     | some c => isAlnumAZ c
     | none => false) &&
    (match ns.data.getLast? with
     | some d => isAlnumAZ d
     | none => false) &&
    ns.data.all isNsChar

/-! Concrete fixtures used by witness and counterexample theorems. -/

/-- Error code of a result, when it is an error. -/
def result_error_code {α : Type} : Except error_info α → Option error_code
  | .error e => some e.code
  | .ok _ => none

/-- Fixture: parameters with every optional field set. -/
def params_all_set : debug_bundle_parameters :=
  { authn_options := some ⟨"alice", "hunter2", "SCRAM-SHA-256"⟩
    controller_logs_size_limit_bytes := some 1024
    cpu_profiler_wait_seconds := some 30
    logs_since := some "2024-01-01"
    logs_size_limit_bytes := some 2048
    logs_until := some "2024-01-02"
    metrics_interval_seconds := some 5
    partition := some ["topic/0", "topic/1"]
    tls_enabled := some true
    tls_insecure_skip_verify := some false
    k8s_namespace := some "redpanda" }

/-- Fixture: parameters with only the namespace set. -/
def params_ns_only : debug_bundle_parameters :=
  { authn_options := none
    controller_logs_size_limit_bytes := none
    cpu_profiler_wait_seconds := none
    logs_since := none
    logs_size_limit_bytes := none
    logs_until := none
    metrics_interval_seconds := none
    partition := none
    tls_enabled := none
    tls_insecure_skip_verify := none
    k8s_namespace := some "redpanda" }

/-- Fixture: a handle whose child is still running. -/
def handle_running : debug_bundle_process :=
  { job_id := "job-1"
    wait_result := none
    output_file_path := "/data/debug-bundle/job-1.zip"
    process_output_file_path := "/data/debug-bundle/job-1.out"
    cout := ["out line"]
    cerr := ["err line"]
    created_time := 100 }

/-- Fixture: a handle whose child exited with code 0. -/
def handle_success : debug_bundle_process :=
  { handle_running with wait_result := some (.exited 0) }

/-- Fixture: a handle whose child exited with code 2. -/
def handle_error : debug_bundle_process :=
  { handle_running with wait_result := some (.exited 2) }

/-- Fixture: state with a running handle. -/
def state_running : service_state :=
  { rpk_process := some handle_running, kv_entry := none, fs := [] }

/-- Fixture: state of a successful run whose bundle file exists. -/
def state_success : service_state :=
  { rpk_process := some handle_success
    kv_entry := none
    fs := ["/data/debug-bundle/job-1.zip"] }

/-- Fixture: state of a successful run whose bundle file is missing. -/
def state_success_no_bundle : service_state :=
  { rpk_process := some handle_success, kv_entry := none, fs := [] }

/-- Fixture: state of a failed run. -/
def state_error : service_state :=
  { rpk_process := some handle_error, kv_entry := none, fs := [] }

/-- Fixture: initiate environment in which the collector binary is missing
and everything else would succeed. -/
def env_no_binary : initiate_env :=
  { rpk_binary_exists := false
    cleanup_throws := false
    storage_dir_exists := true
    mkdir_ok := true
    spawn_ok := true
    rpk_path := "/usr/bin/rpk"
    storage_dir := "/data/debug-bundle"
    now := 200 }

/-- Fixture: initiate environment in which everything succeeds. -/
def env_all_ok : initiate_env :=
  { env_no_binary with rpk_binary_exists := true }

end debug_bundle

namespace debug_bundle

/-! Helper lemmas. -/

theorem isNsChar_of_isAlnumAZ {c : Char} (h : isAlnumAZ c = true) :
    isNsChar c = true := by
  simp [isNsChar, h]

theorem isEmpty_concat_eq_false {α : Type} (l : List α) (a : α) :
    (l ++ [a]).isEmpty = false := by
  cases l <;> rfl

/-- The source validator agrees with the spec's RFC-1123 label rule. -/
theorem is_valid_k8s_namespace_eq_rfc1123_label (ns : String) :
    is_valid_k8s_namespace ns = rfc1123_label ns := by
  obtain ⟨l⟩ := ns
  simp only [is_valid_k8s_namespace, rfc1123_label]
  rcases l with _ | ⟨c, rest⟩
  · rfl
  · rcases List.eq_nil_or_concat rest with rfl | ⟨mid, d, rfl⟩
    · cases hA : isAlnumAZ c
      · simp [is_valid_rfc1123, hA]
      · have hN := isNsChar_of_isAlnumAZ hA
        simp [is_valid_rfc1123, hA, hN]
    · simp only [List.concat_eq_append]
      rw [Bool.eq_iff_iff]
      have hg : (c :: (mid ++ [d])).getLast? = some d :=
        List.getLast?_concat (c :: mid)
      simp only [is_valid_rfc1123, isEmpty_concat_eq_false, List.dropLast_concat,
        List.getLast?_concat, hg, List.head?_cons, List.isEmpty_cons,
        List.all_append, List.all_cons, List.all_nil, List.length_append,
        List.length_cons, List.length_nil, Bool.not_false, Bool.and_eq_true,
        Bool.or_eq_true, Bool.and_true, Bool.true_and, Bool.false_or,
        decide_eq_true_eq]
      constructor
      · rintro ⟨h63, hA, ⟨h62, hM⟩, hD⟩
        exact ⟨⟨⟨h63, hA⟩, hD⟩, isNsChar_of_isAlnumAZ hA, hM,
          isNsChar_of_isAlnumAZ hD⟩
      · rintro ⟨⟨⟨h63, hA⟩, hD⟩, _, hM, _⟩
        exact ⟨h63, hA, ⟨by omega, hM⟩, hD⟩

/-! Claim theorems. -/

/-- C1: every parameter record accepted by `build_rpk_arguments` yields an
argv equal to the fixed leading arguments
`<collector> debug bundle --output <bundle_file> --verbose` followed by the
optional groups in the spec's table order, with each set field contributing
exactly its listed flags (base-10 numbers, `B` byte suffix, `s` duration
suffix, single-token `key=value` forms) and each unset field contributing
nothing — that is, the argv equals `spec_argv`. -/
theorem build_rpk_arguments_matches_spec (rpk_path bundle : String)
    (params : debug_bundle_parameters) (argv : List String)
    (hok : build_rpk_arguments rpk_path bundle params = .ok argv) :
    argv = spec_argv rpk_path bundle params := by
  have h1 : (match params.authn_options with
      | some creds =>
        ["-Xuser=" ++ creds.username, "-Xpass=" ++ creds.password,
         "-Xsasl.mechanism=" ++ creds.mechanism]
      | none => ([] : List String)) = spec_authn_group params.authn_options := by
    cases params.authn_options <;> rfl
  have h2 : (match params.controller_logs_size_limit_bytes with
      | some n => ["--controller-logs-size-limit", toString n ++ "B"]
      | none => ([] : List String))
      = spec_bytes_group "--controller-logs-size-limit"
          params.controller_logs_size_limit_bytes := by
    cases params.controller_logs_size_limit_bytes <;> rfl
  have h3 : (match params.cpu_profiler_wait_seconds with
      | some n => ["--cpu-profiler-wait", toString n ++ "s"]
      | none => ([] : List String))
      = spec_duration_group "--cpu-profiler-wait"
          params.cpu_profiler_wait_seconds := by
    cases params.cpu_profiler_wait_seconds <;> rfl
  have h4 : (match params.logs_since with
      | some v => ["--logs-since", v]
      | none => ([] : List String))
      = spec_string_group "--logs-since" params.logs_since := by
    cases params.logs_since <;> rfl
  have h5 : (match params.logs_size_limit_bytes with
      | some n => ["--logs-size-limit", toString n ++ "B"]
      | none => ([] : List String))
      = spec_bytes_group "--logs-size-limit" params.logs_size_limit_bytes := by
    cases params.logs_size_limit_bytes <;> rfl
  have h6 : (match params.logs_until with
      | some v => ["--logs-until", v]
      | none => ([] : List String))
      = spec_string_group "--logs-until" params.logs_until := by
    cases params.logs_until <;> rfl
  have h7 : (match params.metrics_interval_seconds with
      | some n => ["--metrics-interval", toString n ++ "s"]
      | none => ([] : List String))
      = spec_duration_group "--metrics-interval"
          params.metrics_interval_seconds := by
    cases params.metrics_interval_seconds <;> rfl
  have h8 : (match params.partition with
      | some ps => ["--partition", String.intercalate " " ps]
      | none => ([] : List String))
      = spec_partition_group params.partition := by
    cases params.partition <;> rfl
  have h9 : (match params.tls_enabled with
      | some b => ["-Xtls.enabled=" ++ toString b]
      | none => ([] : List String))
      = spec_bool_group "-Xtls.enabled" params.tls_enabled := by
    rcases params.tls_enabled with _ | _ | _ <;> rfl
  have h10 : (match params.tls_insecure_skip_verify with
      | some b => ["-Xtls.insecure_skip_verify=" ++ toString b]
      | none => ([] : List String))
      = spec_bool_group "-Xtls.insecure_skip_verify"
          params.tls_insecure_skip_verify := by
    rcases params.tls_insecure_skip_verify with _ | _ | _ <;> rfl
  rcases hns : params.k8s_namespace with _ | ns
  · simp only [build_rpk_arguments, h1, h2, h3, h4, h5, h6, h7, h8, h9, h10,
      hns, Except.ok.injEq] at hok
    rw [← hok]
    simp [spec_argv, spec_leading_args, spec_string_group, hns]
  · cases hval : is_valid_k8s_namespace ns
    · simp only [build_rpk_arguments, hns, hval, Bool.not_false, if_true,
        reduceCtorEq] at hok
    · simp only [build_rpk_arguments, h1, h2, h3, h4, h5, h6, h7, h8, h9, h10,
        hns, hval, Bool.not_true, Bool.false_eq_true, if_false,
        Except.ok.injEq] at hok
      rw [← hok]
      simp [spec_argv, spec_leading_args, spec_string_group, hns]

/-- Witness for C1: the builder applied to a record with every field set. -/
theorem build_rpk_arguments_matches_spec_witness :
    ["/usr/bin/rpk", "debug", "bundle", "--output", "/d/j.zip", "--verbose",
     "-Xuser=alice", "-Xpass=hunter2", "-Xsasl.mechanism=SCRAM-SHA-256",
     "--controller-logs-size-limit", "1024B", "--cpu-profiler-wait", "30s",
     "--logs-since", "2024-01-01", "--logs-size-limit", "2048B",
     "--logs-until", "2024-01-02", "--metrics-interval", "5s",
     "--partition", "topic/0 topic/1", "-Xtls.enabled=true",
     "-Xtls.insecure_skip_verify=false", "--namespace", "redpanda"]
    = spec_argv "/usr/bin/rpk" "/d/j.zip" params_all_set :=
  build_rpk_arguments_matches_spec "/usr/bin/rpk" "/d/j.zip" params_all_set _ rfl

/-- C5: with `k8s_namespace` set, `build_rpk_arguments` returns
`invalid_parameters` exactly when the namespace violates the RFC-1123 label
rule (non-empty, at most 63 characters, alphanumeric first and last
characters, all characters in `[A-Za-z0-9-]`), and every namespace
satisfying the rule is accepted and emitted as the trailing
`--namespace <v>` arguments. -/
theorem build_argv_rfc1123_gate (rpk_path bundle : String)
    (params : debug_bundle_parameters) (ns : String)
    (hns : params.k8s_namespace = some ns) :
    (result_error_code (build_rpk_arguments rpk_path bundle params)
        = some .invalid_parameters ↔ rfc1123_label ns = false)
    ∧ (rfc1123_label ns = true →
        ∃ rv, build_rpk_arguments rpk_path bundle params
            = .ok (rv ++ ["--namespace", ns])) := by
  have hv := is_valid_k8s_namespace_eq_rfc1123_label ns
  constructor
  · cases hb : is_valid_k8s_namespace ns
    · rw [hb] at hv
      simp [build_rpk_arguments, result_error_code, hns, hb, ← hv]
    · rw [hb] at hv
      simp [build_rpk_arguments, result_error_code, hns, hb, ← hv]
  · intro hlab
    have hb : is_valid_k8s_namespace ns = true := by rw [hv, hlab]
    simp only [build_rpk_arguments, hns, hb, Bool.not_true, Bool.false_eq_true,
      if_false]
    exact ⟨_, rfl⟩

/-- Witness for C5 at a concrete accepted namespace. -/
theorem build_argv_rfc1123_gate_witness :
    result_error_code (build_rpk_arguments "rpk" "b.zip" params_ns_only)
        = some .invalid_parameters
      ↔ rfc1123_label "redpanda" = false :=
  (build_argv_rfc1123_gate "rpk" "b.zip" params_ns_only "redpanda" rfl).1

theorem path_exists_insert (p : String) (fs : List String) :
    path_exists p (insert_path p fs) = true := by
  by_cases h : path_exists p fs
  · simp [insert_path, h]
  · simp only [insert_path, h, if_false, Bool.false_eq_true]
    simp [path_exists]

theorem path_exists_remove (p : String) (fs : List String) :
    path_exists p (remove_path p fs) = false := by
  simp [path_exists, remove_path]

theorem path_exists_remove_other (p q : String) (fs : List String) (h : q ≠ p) :
    path_exists q (remove_path p fs) = path_exists q fs := by
  simp [path_exists, remove_path, List.mem_filter, h]

/-- When `set_metadata` puts an entry, that entry carries the job id it was
invoked with. -/
theorem set_metadata_put_job_id (sha : String → List Nat) (wo : write_outcome)
    (st : service_state) (job_id : String) (md : metadata)
    (hput : (set_metadata sha wo st job_id).2 = some md) :
    md.job_id = job_id := by
  rcases hp : st.rpk_process with _ | h
  · simp [set_metadata, hp] at hput
  · rcases hw : h.wait_result with _ | ws
    · simp [set_metadata, hp, hw] at hput
    · by_cases hmiss :
        (was_run_successful ws && !path_exists h.output_file_path st.fs) = true
      · simp [set_metadata, hp, hw, hmiss] at hput
      · cases wo <;>
        · simp only [set_metadata, hp, hw, hmiss, Bool.false_eq_true, if_false,
            Option.some.injEq] at hput
          subst hput
          rfl

/-- C2 counterexample: a run that exited with code 0 while its bundle file is
missing.  The claim says a metadata entry with an empty checksum is put for
every completed run; `set_metadata` instead returns early and puts
nothing. -/
theorem set_metadata_missing_bundle_counterexample :
    state_success_no_bundle.rpk_process = some handle_success
    ∧ handle_success.wait_result = some (.exited 0)
    ∧ path_exists handle_success.output_file_path state_success_no_bundle.fs = false
    ∧ (set_metadata (fun _ => []) .ok state_success_no_bundle "job-1").2 = none
    ∧ (set_metadata (fun _ => []) .ok state_success_no_bundle "job-1").1.kv_entry
        = none :=
  ⟨rfl, rfl, rfl, rfl, rfl⟩

/-- C2 (amended): when `set_metadata` runs for a completed run, it puts a
metadata entry whose checksum is the SHA-256 of the bundle file if the
process exited with code 0 and the bundle file exists, and an empty checksum
if the run was unsuccessful (non-zero exit or signal); when the run exited
with code 0 but the bundle file is missing, no entry is put and the state is
untouched. -/
theorem set_metadata_checksum (sha : String → List Nat) (wo : write_outcome)
    (st : service_state) (job_id : String) (h : debug_bundle_process)
    (ws : wait_status) (hp : st.rpk_process = some h)
    (hw : h.wait_result = some ws) :
    (was_run_successful ws = true →
      path_exists h.output_file_path st.fs = true →
      ∃ md, (set_metadata sha wo st job_id).2 = some md
        ∧ md.sha256_checksum = sha h.output_file_path
        ∧ md.job_id = job_id ∧ md.wait_result = ws)
    ∧ (was_run_successful ws = false →
      ∃ md, (set_metadata sha wo st job_id).2 = some md
        ∧ md.sha256_checksum = [] ∧ md.job_id = job_id ∧ md.wait_result = ws)
    ∧ (was_run_successful ws = true →
      path_exists h.output_file_path st.fs = false →
      set_metadata sha wo st job_id = (st, none)) := by
  refine ⟨?_, ?_, ?_⟩
  · intro hs hex
    cases wo <;>
      exact ⟨{ created_at := h.created_time, job_id := job_id,
               debug_bundle_file_path := h.output_file_path,
               process_output_file_path := h.process_output_file_path,
               sha256_checksum := sha h.output_file_path,
               wait_result := ws },
             by simp [set_metadata, hp, hw, hs, hex], rfl, rfl, rfl⟩
  · intro hs
    cases wo <;>
      exact ⟨{ created_at := h.created_time, job_id := job_id,
               debug_bundle_file_path := h.output_file_path,
               process_output_file_path := h.process_output_file_path,
               sha256_checksum := []
               wait_result := ws },
             by simp [set_metadata, hp, hw, hs], rfl, rfl, rfl⟩
  · intro hs hmiss
    simp [set_metadata, hp, hw, hs, hmiss]

/-- Witness for C2 (amended) on a successful run whose bundle exists. -/
theorem set_metadata_checksum_witness :
    ((set_metadata (fun _ => [7]) .ok state_success "job-1").2).map
        metadata.sha256_checksum = some [7]
    ∧ ((set_metadata (fun _ => [7]) .ok state_success "job-1").2).map
        metadata.job_id = some "job-1" := by
  obtain ⟨h1, -, -⟩ := set_metadata_checksum (fun _ => [7]) .ok state_success
    "job-1" handle_success (.exited 0) rfl rfl
  obtain ⟨md, hmd, hsha, hjob, -⟩ := h1 rfl rfl
  rw [hmd]
  constructor <;> simp [Option.map, hsha, hjob]

/-- C3 counterexample: the sidecar write fails after `write_file` already
created the process-output file (the open with `create` succeeded, the
streaming copy failed).  The scheduled rollback removes the KV entry, but
the partially written process-output file remains: the claim's "neither
exists" is violated. -/
theorem set_metadata_rollback_counterexample :
    (set_metadata (fun _ => [7]) .fail_after_create state_success "job-1").1.kv_entry
      = none
    ∧ path_exists handle_success.process_output_file_path
        (set_metadata (fun _ => [7]) .fail_after_create state_success "job-1").1.fs
      = true :=
  ⟨rfl, rfl⟩

/-- C3 (amended): in `set_metadata`, when the metadata entry is put, a
best-effort background removal of it is scheduled and cancelled only if the
sidecar write succeeds.  Hence, once the rollback (if still scheduled) has
run: after a successful sidecar write both the KV entry and the
process-output file exist; after a write that failed before the file was
created the KV entry is absent and the file system is untouched; after a
write that failed after creating the file the KV entry is absent but the
(partial) process-output file exists. -/
theorem set_metadata_rollback (sha : String → List Nat) (st : service_state)
    (job_id : String) (h : debug_bundle_process) (ws : wait_status)
    (hp : st.rpk_process = some h) (hw : h.wait_result = some ws)
    (hput : (was_run_successful ws && !path_exists h.output_file_path st.fs)
      = false) :
    ((set_metadata sha .ok st job_id).1.kv_entry
        = (set_metadata sha .ok st job_id).2
      ∧ (set_metadata sha .ok st job_id).2.isSome = true
      ∧ path_exists h.process_output_file_path
          (set_metadata sha .ok st job_id).1.fs = true)
    ∧ ((set_metadata sha .fail_before_create st job_id).1.kv_entry = none
      ∧ (set_metadata sha .fail_before_create st job_id).1.fs = st.fs)
    ∧ ((set_metadata sha .fail_after_create st job_id).1.kv_entry = none
      ∧ path_exists h.process_output_file_path
          (set_metadata sha .fail_after_create st job_id).1.fs = true) := by
  refine ⟨⟨?_, ?_, ?_⟩, ⟨?_, ?_⟩, ⟨?_, ?_⟩⟩ <;>
    simp [set_metadata, hp, hw, hput, path_exists_insert]

/-- Witness for C3 (amended) on a successful run whose bundle exists. -/
theorem set_metadata_rollback_witness :
    ((set_metadata (fun _ => [7]) .ok state_success "job-1").1.kv_entry
        = (set_metadata (fun _ => [7]) .ok state_success "job-1").2
      ∧ ((set_metadata (fun _ => [7]) .ok state_success "job-1").2).isSome = true
      ∧ path_exists handle_success.process_output_file_path
          (set_metadata (fun _ => [7]) .ok state_success "job-1").1.fs = true)
    ∧ ((set_metadata (fun _ => [7]) .fail_before_create state_success "job-1").1.kv_entry
        = none
      ∧ (set_metadata (fun _ => [7]) .fail_before_create state_success "job-1").1.fs
        = state_success.fs)
    ∧ ((set_metadata (fun _ => [7]) .fail_after_create state_success "job-1").1.kv_entry
        = none
      ∧ path_exists handle_success.process_output_file_path
          (set_metadata (fun _ => [7]) .fail_after_create state_success "job-1").1.fs
        = true) :=
  set_metadata_rollback (fun _ => [7]) state_success "job-1" handle_success
    (.exited 0) rfl rfl rfl

/-- C4 counterexample: `initiate` called while the current handle is running
but the collector binary is missing returns `rpk_binary_not_present`, not
`debug_bundle_process_running` — the binary check precedes the running
check. -/
theorem initiate_running_counterexample :
    state_running.is_running = true
    ∧ (initiate_rpk_debug_bundle_collection env_no_binary state_running "job-2"
        params_ns_only).2
      = .error ⟨.rpk_binary_not_present, "/usr/bin/rpk not present"⟩
    ∧ error_code.rpk_binary_not_present ≠ error_code.debug_bundle_process_running :=
  ⟨rfl, rfl, by decide⟩

/-- C4 (amended): at most one handle is ever in the running state.  When the
current handle's status is running, `initiate` — provided the collector
binary is present — returns `debug_bundle_process_running`; in every case
with a running handle the state is left unchanged (no cleanup, no spawn, no
replacement), and a new handle replaces an existing one only when the
previous one was in a terminal state. -/
theorem initiate_single_run (env : initiate_env) (st : service_state)
    (job_id : String) (params : debug_bundle_parameters) :
    (env.rpk_binary_exists = true → st.is_running = true →
      initiate_rpk_debug_bundle_collection env st job_id params
        = (st, .error ⟨.debug_bundle_process_running,
            "Debug process already running"⟩))
    ∧ (st.is_running = true →
      (initiate_rpk_debug_bundle_collection env st job_id params).1 = st)
    ∧ (∀ h h', st.rpk_process = some h →
      (initiate_rpk_debug_bundle_collection env st job_id params).1.rpk_process
        = some h' →
      h' ≠ h → h.process_status ≠ .running) := by
  refine ⟨?_, ?_, ?_⟩
  · intro hbin hrun
    simp [initiate_rpk_debug_bundle_collection, hbin, hrun]
  · intro hrun
    cases hbin : env.rpk_binary_exists <;>
      simp [initiate_rpk_debug_bundle_collection, hbin, hrun]
  · intro h h' hp hp' hne hrun
    have hr : st.is_running = true := by
      simp [service_state.is_running, hp, hrun]
    cases hbin : env.rpk_binary_exists <;>
      simp only [initiate_rpk_debug_bundle_collection, hbin, hr, Bool.not_true,
        Bool.not_false, Bool.false_eq_true, if_false, if_true] at hp' <;>
      exact (hne (Option.some_inj.mp (hp'.symm.trans hp))).elim

/-- Witness for C4 (amended) on a running handle with the binary present. -/
theorem initiate_single_run_witness :
    initiate_rpk_debug_bundle_collection env_all_ok state_running "job-2"
        params_ns_only
      = (state_running, .error ⟨.debug_bundle_process_running,
          "Debug process already running"⟩) :=
  (initiate_single_run env_all_ok state_running "job-2" params_ns_only).1
    rfl rfl

/-- C6: `cancel` returns `debug_bundle_process_never_started` when no handle
exists, `debug_bundle_process_not_running` when the handle is not running,
`job_id_not_recognized` on a job-id mismatch, and otherwise calls
`terminate` with a one-second grace: termination success yields success,
a `process_already_completed` error yields
`debug_bundle_process_not_running`, and any other failure yields
`internal_error`. -/
theorem cancel_cases (tout : terminate_outcome) (st : service_state)
    (job_id : String) :
    (st.rpk_process = none →
      cancel_rpk_debug_bundle tout st job_id
        = (.error ⟨.debug_bundle_process_never_started, ""⟩, none))
    ∧ (∀ h, st.rpk_process = some h → h.process_status ≠ .running →
      cancel_rpk_debug_bundle tout st job_id
        = (.error ⟨.debug_bundle_process_not_running, ""⟩, none))
    ∧ (∀ h, st.rpk_process = some h → h.process_status = .running →
      job_id ≠ h.job_id →
      cancel_rpk_debug_bundle tout st job_id
        = (.error ⟨.job_id_not_recognized, ""⟩, none))
    ∧ (∀ h, st.rpk_process = some h → h.process_status = .running →
      job_id = h.job_id →
      (cancel_rpk_debug_bundle tout st job_id).2 = some 1000
      ∧ (tout = .ok →
          (cancel_rpk_debug_bundle tout st job_id).1 = .ok ())
      ∧ (tout = .process_already_completed →
          (cancel_rpk_debug_bundle tout st job_id).1
            = .error ⟨.debug_bundle_process_not_running, ""⟩)
      ∧ (∀ m, tout = .sys_error m →
          (cancel_rpk_debug_bundle tout st job_id).1
            = .error ⟨.internal_error, m⟩)
      ∧ (∀ m, tout = .other_error m →
          (cancel_rpk_debug_bundle tout st job_id).1
            = .error ⟨.internal_error, m⟩)) := by
  refine ⟨?_, ?_, ?_, ?_⟩
  · intro hp
    simp [cancel_rpk_debug_bundle, hp]
  · intro h hp hr
    simp [cancel_rpk_debug_bundle, hp, hr]
  · intro h hp hr hj
    simp [cancel_rpk_debug_bundle, hp, hr, hj]
  · intro h hp hr hj
    cases tout <;>
      refine ⟨by simp [cancel_rpk_debug_bundle, hp, hr, hj], ?_, ?_, ?_, ?_⟩ <;>
      · intros
        simp_all [cancel_rpk_debug_bundle, hp, hr, hj]

/-- Witness for C6: cancelling the running fixture job. -/
theorem cancel_cases_witness :
    (cancel_rpk_debug_bundle .ok state_running "job-1").1 = .ok ()
    ∧ (cancel_rpk_debug_bundle .ok state_running "job-1").2 = some 1000 := by
  obtain ⟨-, -, -, hlast⟩ := cancel_cases .ok state_running "job-1"
  obtain ⟨h2, hok, -, -, -⟩ := hlast handle_running rfl rfl rfl
  exact ⟨hok rfl, h2⟩

/-- C7: `path` returns `debug_bundle_process_never_started` when no handle
exists, `debug_bundle_process_running` while running, `process_failed` on an
error status, and in the success case `job_id_not_recognized` on a job-id
mismatch, `internal_error` when the bundle file is missing on disk, and
otherwise the bundle file's path. -/
theorem path_cases (st : service_state) (job_id : String) :
    (st.rpk_process = none →
      rpk_debug_bundle_path st job_id
        = .error ⟨.debug_bundle_process_never_started, ""⟩)
    ∧ (∀ h, st.rpk_process = some h → h.process_status = .running →
      rpk_debug_bundle_path st job_id
        = .error ⟨.debug_bundle_process_running, ""⟩)
    ∧ (∀ h, st.rpk_process = some h → h.process_status = .error →
      rpk_debug_bundle_path st job_id = .error ⟨.process_failed, ""⟩)
    ∧ (∀ h, st.rpk_process = some h → h.process_status = .success →
      job_id ≠ h.job_id →
      rpk_debug_bundle_path st job_id = .error ⟨.job_id_not_recognized, ""⟩)
    ∧ (∀ h, st.rpk_process = some h → h.process_status = .success →
      job_id = h.job_id → path_exists h.output_file_path st.fs = false →
      rpk_debug_bundle_path st job_id
        = .error ⟨.internal_error, "Debug bundle file not found"⟩)
    ∧ (∀ h, st.rpk_process = some h → h.process_status = .success →
      job_id = h.job_id → path_exists h.output_file_path st.fs = true →
      rpk_debug_bundle_path st job_id = .ok h.output_file_path) := by
  refine ⟨?_, ?_, ?_, ?_, ?_, ?_⟩
  · intro hp
    simp [rpk_debug_bundle_path, hp]
  · intro h hp hr
    simp [rpk_debug_bundle_path, hp, hr]
  · intro h hp hr
    simp [rpk_debug_bundle_path, hp, hr]
  · intro h hp hr hj
    simp [rpk_debug_bundle_path, hp, hr, hj]
  · intro h hp hr hj hex
    simp [rpk_debug_bundle_path, hp, hr, hj, hex]
  · intro h hp hr hj hex
    simp [rpk_debug_bundle_path, hp, hr, hj, hex]

/-- Witness for C7: fetching the path of the successful fixture run. -/
theorem path_cases_witness :
    rpk_debug_bundle_path state_success "job-1"
      = .ok "/data/debug-bundle/job-1.zip" :=
  (path_cases state_success "job-1").2.2.2.2.2 handle_success rfl rfl rfl rfl

/-- C8: `wait` stores the awaited terminal status in the handle; when the
underlying wait throws, the stored status is a synthetic `exited` with code
1 — so subsequent status queries report `error` — and the same exception is
re-raised to the caller. -/
theorem wait_stores_status (h : debug_bundle_process) :
    (∀ ws, ((h.wait (.completed ws)).1.wait_result = some ws
      ∧ (h.wait (.completed ws)).2 = .ok ws))
    ∧ (∀ e, ((h.wait (.threw e)).1.wait_result = some (.exited 1)
      ∧ (h.wait (.threw e)).1.process_status = .error
      ∧ (h.wait (.threw e)).2 = .error e)) :=
  ⟨fun _ => ⟨rfl, rfl⟩, fun _ => ⟨rfl, rfl, rfl⟩⟩

/-- C9: the background metadata step for job `job_id` is a no-op — no KV put
and no state change — unless the currently installed handle exists and
carries exactly that job id; any entry it does put names the installed
handle's job id. -/
theorem handle_wait_result_guard (sha : String → List Nat) (wo : write_outcome)
    (st : service_state) (job_id : String) :
    (st.rpk_process = none →
      handle_wait_result sha wo st job_id = (st, none))
    ∧ (∀ h, st.rpk_process = some h → h.job_id ≠ job_id →
      handle_wait_result sha wo st job_id = (st, none))
    ∧ (∀ md, (handle_wait_result sha wo st job_id).2 = some md →
      ∃ h, st.rpk_process = some h ∧ h.job_id = job_id
        ∧ md.job_id = job_id) := by
  refine ⟨?_, ?_, ?_⟩
  · intro hp
    simp [handle_wait_result, hp]
  · intro h hp hj
    simp [handle_wait_result, hp, hj]
  · intro md hput
    rcases hp : st.rpk_process with _ | h
    · simp [handle_wait_result, hp] at hput
    · by_cases hj : h.job_id = job_id
      · refine ⟨h, rfl, hj, ?_⟩
        rw [handle_wait_result, hp] at hput
        simp only [hj, ne_eq, not_true_eq_false, if_false] at hput
        exact set_metadata_put_job_id sha wo st job_id md hput
      · simp [handle_wait_result, hp, hj] at hput

/-- Witness for C9: the step is a no-op when another job's handle is
installed. -/
theorem handle_wait_result_guard_witness :
    handle_wait_result (fun _ => []) .ok state_success "job-2"
      = (state_success, none) :=
  (handle_wait_result_guard (fun _ => []) .ok state_success "job-2").2.1
    handle_success rfl (by decide)

/-- C10 counterexample: after a successful `delete` of a success-state run,
`status()` does not succeed: the bundle file is gone, the `file_size` query
fails, and `status` returns `internal_error` — refuting the claim's
"a subsequent status() for the same job still succeeds". -/
theorem delete_then_status_counterexample :
    (delete_rpk_debug_bundle false state_success "job-1").2 = .ok ()
    ∧ rpk_debug_bundle_status (fun _ => 5)
        (delete_rpk_debug_bundle false state_success "job-1").1
      = .error ⟨.internal_error,
          "Failed to get file size for debug bundle file"⟩ :=
  ⟨rfl, rfl⟩

/-- C10 (amended): a successful `delete` on a terminal-state run removes
only the bundle file; the process-output file, the KV entry and the handle
are untouched, so `status()` still observes the same job — it succeeds for
an error-state run, while for a success-state run the file-size query on
the removed bundle fails and yields `internal_error` — and the surviving
artifacts are removed by the next initiate's `cleanup_previous_run`. -/
theorem delete_frame (st : service_state) (job_id : String)
    (h : debug_bundle_process) (hp : st.rpk_process = some h)
    (hterm : h.process_status ≠ .running) (hj : h.job_id = job_id) :
    (delete_rpk_debug_bundle false st job_id).2 = .ok ()
    ∧ (delete_rpk_debug_bundle false st job_id).1.rpk_process = st.rpk_process
    ∧ (delete_rpk_debug_bundle false st job_id).1.kv_entry = st.kv_entry
    ∧ path_exists h.output_file_path
        (delete_rpk_debug_bundle false st job_id).1.fs = false
    ∧ (∀ p, p ≠ h.output_file_path →
      path_exists p (delete_rpk_debug_bundle false st job_id).1.fs
        = path_exists p st.fs)
    ∧ (h.process_status = .error → ∀ sizes,
      rpk_debug_bundle_status sizes (delete_rpk_debug_bundle false st job_id).1
        = .ok { job_id := h.job_id
                status := .error
                created_timestamp := h.created_time
                file_name := path_filename h.output_file_path
                file_size := none
                cout := h.cout
                cerr := h.cerr })
    ∧ (h.process_status = .success → ∀ sizes,
      rpk_debug_bundle_status sizes (delete_rpk_debug_bundle false st job_id).1
        = .error ⟨.internal_error,
            "Failed to get file size for debug bundle file"⟩)
    ∧ (cleanup_previous_run (delete_rpk_debug_bundle false st job_id).1).kv_entry
        = none
    ∧ path_exists h.process_output_file_path
        (cleanup_previous_run (delete_rpk_debug_bundle false st job_id).1).fs
      = false := by
  have hdel : delete_rpk_debug_bundle false st job_id
      = ({ st with fs := remove_path h.output_file_path st.fs }, .ok ()) := by
    rcases hs : h.process_status with _ | _ | _
    · exact absurd hs hterm
    · simp [delete_rpk_debug_bundle, hp, hs, hj]
    · simp [delete_rpk_debug_bundle, hp, hs, hj]
  refine ⟨?_, ?_, ?_, ?_, ?_, ?_, ?_, ?_, ?_⟩
  · simp [hdel]
  · simp [hdel]
  · simp [hdel]
  · simp [hdel, path_exists_remove]
  · intro p hne
    simp [hdel, path_exists_remove_other h.output_file_path p st.fs hne]
  · intro hs sizes
    simp [rpk_debug_bundle_status, hdel, hp, hs]
  · intro hs sizes
    simp [rpk_debug_bundle_status, hdel, hp, hs, path_exists_remove]
  · simp [cleanup_previous_run, hdel, hp]
  · simp [cleanup_previous_run, hdel, hp, path_exists_remove]

/-- Witness for C10 (amended) on the error-state fixture. -/
theorem delete_frame_witness :
    (delete_rpk_debug_bundle false state_error "job-1").2 = .ok ()
    ∧ (delete_rpk_debug_bundle false state_error "job-1").1.rpk_process
      = state_error.rpk_process := by
  obtain ⟨h1, h2, -⟩ :=
    delete_frame state_error "job-1" handle_error rfl (by decide) rfl
  exact ⟨h1, h2⟩

end debug_bundle
